import Mathlib

/-!
# c-to-json: the serializer (`ast.c`) and the entry point (`main.c`)

A shallow embedding of `ast_type_to_str`, `mult`, `ast_to_json` and `main`, and the
properties of the specification that concern them.

Conventions of the embedding.

* A C string is the list of its characters up to the terminating NUL (`CStr`). A
  `char *` is an `Option Buffer`, `none` being `NULL`; a `Buffer` records the
  characters of the object pointed to, whether a NUL ends them inside the object, and
  whether the object is a live block of `malloc`.
* A call ends in one of three ways (`Outcome`): it returns, it ends the process with
  `exit(-1)`, or it runs into behaviour that ISO C leaves undefined (`Undefined`): a
  null pointer or a buffer without NUL given to `%s`, `free` of a pointer that `malloc`
  did not return, a store through a null pointer, an `int` overflow, a write past the
  end of a buffer. The first such event in program order is the outcome.
* `int` is 32 bits wide and `size_t` 64 bits wide.
* Every `malloc` and the sign of the result of `sprintf` are answered by an environment
  `Env`, one entry per call, in call order.
* The diagnostics of `main` are no subject of any property here; `fmt_s` renders their
  `%s` conversions the way the GNU C library does.
-/

namespace CToJson

/-- A C string: its characters, without the terminating NUL. -/
abbrev CStr := List Char

/-- Modelled from the spec: `ast.h`, which declares the enumeration `AST_NODE_TYPE`, is
not among the sources; the spec calls it a finite, enumerable set of kinds. A value of a
C enumeration is an integer code, so every kind is some `Int`. -/
abbrev AST_NODE_TYPE := Int

/-- Modelled from the spec: `struct AST_NODE` is declared in the missing `ast.h`. Its
fields are the ones `ast.c` reads: `type`, `children_number` and `children`. The pair
(`children_number`, `children`) is the C representation of a sequence of child nodes,
here a list; `children_number` is its length. -/
inductive AST_NODE where
  | mk (type : AST_NODE_TYPE) (children : List AST_NODE)

/-- Field `root->type`. -/
def AST_NODE.type : AST_NODE → AST_NODE_TYPE
  | .mk t _ => t

/-- Field `root->children`. -/
def AST_NODE.children : AST_NODE → List AST_NODE
  | .mk _ cs => cs

/-- Field `root->children_number` (an `int`). -/
def AST_NODE.children_number (root : AST_NODE) : Int :=
  (root.children.length : Int)

mutual
/-- Number of nodes of a tree. -/
def AST_NODE.size : AST_NODE → Nat
  | .mk _ cs => 1 + AST_NODE.sizeList cs
/-- Number of nodes of a forest. -/
def AST_NODE.sizeList : List AST_NODE → Nat
  | [] => 0
  | c :: cs => c.size + AST_NODE.sizeList cs
end

/-- Answers of the C library, one per call and in call order, to the calls of `malloc`
(`true`: the result is not the null pointer) and to the call of `sprintf` (`true`: the
result is not negative). Past the end of the list every call succeeds. -/
abbrev Env := List Bool

/-- The answer to the next call, and the remaining answers. -/
def Env.next : Env → Bool × Env
  | [] => (true, [])
  | b :: bs => (b, bs)

/-- `ast_type_to_str` of `ast.c`: a `switch` whose only label is
`default: return NULL;  // TODO`. -/
def ast_type_to_str (_type : AST_NODE_TYPE) : Option CStr :=
  none

/-- Conversion `%s` in the diagnostics of `main`: the characters of the argument. For a
null pointer the C standard defines nothing; the GNU C library writes `(null)`. -/
def fmt_s : Option CStr → CStr
  | some s => s
  | none => "(null)".toList

/-- Conversion `%d` of `sprintf`: the decimal digits, with a leading minus sign for a
negative number. -/
def fmt_d : Int → CStr
  | Int.ofNat m => Nat.toDigits 10 m
  | Int.negSucc m => '-' :: Nat.toDigits 10 (m + 1)

/-- Largest value of an `int`, taken as 32 bits wide. -/
def INT_MAX : Int := 2147483647

/-- Number of values of a `size_t`, taken as 64 bits wide: arithmetic on `size_t` is
modulo this number. -/
def SIZE_MODULUS : Nat := 18446744073709551616

/-- Where a non-null `char *` points: to the start of a live block obtained from
`malloc`, or to storage that `malloc` did not hand out (a string literal, an array). -/
inductive Storage where
  | heap
  | static

/-- The object a non-null `char *` points to: its characters from the pointer on, up to
the first NUL if there is one inside the object (`terminated`), else up to the end of
the object. Only a terminated buffer is a C string. -/
structure Buffer where
  bytes : CStr
  terminated : Bool
  storage : Storage

/-- The string literal `""`. -/
def Buffer.empty_literal : Buffer :=
  ⟨[], true, Storage.static⟩

/-- Behaviour that ISO C leaves undefined and that the code of `ast.c` can run into. -/
inductive Undefined where
  /-- A null pointer given to a `%s` conversion. -/
  | null_string
  /-- A `%s` conversion or `strlen` given a buffer without NUL: a read past its end. -/
  | unterminated_string
  /-- The pointer given to `free` is neither null nor the result of `malloc`. -/
  | free_of_unallocated
  /-- A store through the null pointer that an untested `malloc` returned. -/
  | write_through_null
  /-- An `int` computation leaves the range of `int`. -/
  | int_overflow
  /-- A call of `sprintf` writes past the end of its buffer. -/
  | buffer_overflow
  /-- The right operand of `%` is zero. -/
  | division_by_zero
  /-- A read of `str[i]` with `i` not below `strlen(str)`. -/
  | read_outside_string

/-- How a call ends: it returns a value, it ends the process through `exit(-1)` after
the given message on `stderr`, or it runs into undefined behaviour, after which ISO C
says nothing about the run. -/
inductive Outcome (α : Type) where
  | returns (value : α)
  | exits (message : String)
  | undefined (what : Undefined)

/-- Library function `strlen`: defined on C strings only. -/
def strlen (str : Buffer) : Except Undefined Nat :=
  if str.terminated then .ok str.bytes.length else .error Undefined.unterminated_string

/-- Library function `free`: defined for the null pointer and for the result of a
`malloc`, undefined for any other pointer. -/
def free : Option Buffer → Except Undefined Unit
  | none => .ok ()
  | some b =>
    match b.storage with
    | Storage.heap => .ok ()
    | Storage.static => .error Undefined.free_of_unallocated

/-- The loop `for (i = 0; i < root->children_number; ++i) free(children[i]);`
(ast.c:83-86). -/
def free_each : List Buffer → Except Undefined Unit
  | [] => .ok ()
  | b :: bs =>
    match free (some b) with
    | .error u => .error u
    | .ok _ => free_each bs

/-- The copy loop of `mult` (ast.c:60-64), `for (i = 0; i < res_len; ++i)
res[i] = str[i % src_len];`, from index `i` on with `count = res_len - i` iterations to
go; `res_ok` tells whether `res` is non-null. An iteration evaluates `i % src_len`,
reads `str` there, stores into `res[i]` and increments the `int i`. -/
def mult_copy (str : CStr) (src_len : Nat) (res_ok : Bool) :
    Nat → Nat → Except Undefined CStr
  | 0, _ => .ok []
  | count + 1, i =>
    if src_len = 0 then
      .error Undefined.division_by_zero
    else
      match str[i % src_len]? with
      | none => .error Undefined.read_outside_string
      | some c =>
        if !res_ok then
          .error Undefined.write_through_null
        else if (i : Int) = INT_MAX then
          .error Undefined.int_overflow
        else
          match mult_copy str src_len res_ok count (i + 1) with
          | .error u => .error u
          | .ok cs => .ok (c :: cs)

/-- `mult` of `ast.c`. `NULL` for negative `n`, the literal `""` for 0, `str` itself for
1. Otherwise `src_len = strlen(str)`, `res_len = src_len * n` in `size_t`, `res` is the
untested result of `malloc(sizeof(char) * res_len)`, next answer of the environment,
the copy loop fills `res_len` characters and `res` is returned: no NUL is stored and
no room is allocated for one. -/
def mult (n : Int) (str : Buffer) (env : Env) : Except Undefined (Option Buffer × Env) :=
  if n < 0 then
    .ok (none, env)
  else if n = 0 then
    .ok (some Buffer.empty_literal, env)
  else if n = 1 then
    .ok (some str, env)
  else
    match strlen str with
    | .error u => .error u
    | .ok src_len =>
      let res_len := (src_len * n.toNat) % SIZE_MODULUS
      let res_ok := (Env.next env).1
      let env1 := (Env.next env).2
      match mult_copy str.bytes src_len res_ok res_len 0 with
      | .error u => .error u
      | .ok bytes =>
        .ok (if res_ok then some ⟨bytes, false, Storage.heap⟩ else none, env1)

/-- Conversion `%s` of `sprintf`: the characters of a C string. A null pointer and a
buffer without NUL are undefined. -/
def sprintf_s : Option Buffer → Except Undefined CStr
  | none => .error Undefined.null_string
  | some b => if b.terminated then .ok b.bytes else .error Undefined.unterminated_string

/-- Output of `sprintf` for two consecutive parts of a format, processed left to
right: the first undefined conversion decides. -/
def sprintf_cat : Except Undefined CStr → Except Undefined CStr → Except Undefined CStr
  | .error u, _ => .error u
  | .ok _, .error u => .error u
  | .ok a, .ok b => .ok (a ++ b)

/-- The characters the `sprintf` call of `ast_to_json` (ast.c:97-111) produces,
conversion by conversion in the order of the format
`"%s{\n" "%s%s\"type\": \"%s\",\n" "%s%s\"children_number\": %d,\n"
"%s%s\"children\": [\n" "%s" "%s%s]" "%s}"`. -/
def json_sprintf (act_tab : Option Buffer) (tab : Buffer) (type_str : Option Buffer)
    (children_number : Int) (conc_children : Option Buffer) :
    Except Undefined CStr :=
  sprintf_cat (sprintf_cat (sprintf_cat (sprintf_cat (sprintf_cat (sprintf_cat
  (sprintf_cat (sprintf_cat (sprintf_cat (sprintf_cat (sprintf_cat (sprintf_cat
  (sprintf_cat (sprintf_cat (sprintf_cat (sprintf_cat (sprintf_cat (sprintf_cat
  (sprintf_cat (sprintf_cat
    (sprintf_s act_tab) (.ok "\x7b\n".toList))
    (sprintf_s act_tab)) (sprintf_s (some tab))) (.ok "\"type\": \"".toList))
    (sprintf_s type_str)) (.ok "\",\n".toList))
    (sprintf_s act_tab)) (sprintf_s (some tab))) (.ok "\"children_number\": ".toList))
    (.ok (fmt_d children_number))) (.ok ",\n".toList))
    (sprintf_s act_tab)) (sprintf_s (some tab))) (.ok "\"children\": [\n".toList))
    (sprintf_s conc_children))
    (sprintf_s act_tab)) (sprintf_s (some tab))) (.ok "]".toList))
    (sprintf_s act_tab)) (.ok "\x7d".toList)

mutual
/-- `ast_to_json` of `ast.c`, statement by statement. The result is the list of the
recursive calls this call makes, each with its node and its `shift` argument, and the
way the call ends. `json_size` is the size of the buffer `json`, which the source
leaves open (`malloc(/* TODO */)`). The answers of `malloc` and the sign of the result
of `sprintf` come from the environment, in call order. -/
def ast_to_json (json_size : Nat) :
    AST_NODE → Int → Buffer → Env → List (AST_NODE × Int) × Outcome (Buffer × Env)
  | .mk type children, shift, tab, env =>
    let children_ok := (Env.next env).1
    let env0 := (Env.next env).2
    match ast_to_json_children json_size children shift tab children_ok env0 with
    | (calls, .exits m) => (calls, .exits m)
    | (calls, .undefined u) => (calls, .undefined u)
    | (calls, .returns (children_texts, env1)) =>
      let conc_children : Option Buffer := some Buffer.empty_literal
      if conc_children.isNone then
        (calls, .exits "FATAL ERROR! Memory for JSON concatenation cannot be allocated!\n")
      else
        match free_each children_texts with
        | .error u => (calls, .undefined u)
        | .ok _ =>
          let json_ok := (Env.next env1).1
          let env2 := (Env.next env1).2
          if !json_ok then
            (calls,
              .exits "FATAL ERROR! Memory for JSON representation cannot be allocated!\n")
          else
            match mult shift tab env2 with
            | .error u => (calls, .undefined u)
            | .ok (act_tab, env3) =>
              match json_sprintf act_tab tab
                  ((ast_type_to_str type).map fun s => ⟨s, true, Storage.static⟩)
                  (AST_NODE.mk type children).children_number conc_children with
              | .error u => (calls, .undefined u)
              | .ok text =>
                if json_size < text.length + 1 then
                  (calls, .undefined Undefined.buffer_overflow)
                else
                  let res_ok := (Env.next env3).1
                  let env4 := (Env.next env3).2
                  match free conc_children with
                  | .error u => (calls, .undefined u)
                  | .ok _ =>
                    match free act_tab with
                    | .error u => (calls, .undefined u)
                    | .ok _ =>
                      if !res_ok then
                        (calls,
                          .exits "FATAL ERROR! String formatting cannot be applied!\n")
                      else
                        (calls, .returns (⟨text, true, Storage.heap⟩, env4))
/-- The first loop of `ast_to_json` (ast.c:71-74), from child `i` on:
`children[i] = ast_to_json(root->children[i], shift + 2, tab);`. The argument
`shift + 2` is an `int` addition; the store into `children[i]` goes through the
untested result of `malloc` (`children_ok`). -/
def ast_to_json_children (json_size : Nat) :
    List AST_NODE → Int → Buffer → Bool → Env →
      List (AST_NODE × Int) × Outcome (List Buffer × Env)
  | [], _, _, _, env => ([], .returns ([], env))
  | c :: cs, shift, tab, children_ok, env =>
    if INT_MAX < shift + 2 then
      ([], .undefined Undefined.int_overflow)
    else
      match ast_to_json json_size c (shift + 2) tab env with
      | (_, .exits m) => ([(c, shift + 2)], .exits m)
      | (_, .undefined u) => ([(c, shift + 2)], .undefined u)
      | (_, .returns (text, env1)) =>
        if !children_ok then
          ([(c, shift + 2)], .undefined Undefined.write_through_null)
        else
          match ast_to_json_children json_size cs shift tab children_ok env1 with
          | (calls, .exits m) => ((c, shift + 2) :: calls, .exits m)
          | (calls, .undefined u) => ((c, shift + 2) :: calls, .undefined u)
          | (calls, .returns (texts, env2)) =>
            ((c, shift + 2) :: calls, .returns (text :: texts, env2))
end

/-- What `main` observes of the world around it. -/
structure World where
  /-- Whether `fopen(name, "r")` returns a stream. -/
  fopen_r : CStr → Bool
  /-- The value `yyparse()` returns. -/
  yyparse : Int
  /-- The result of the call `ast_to_json(astroot)` as `main.c` writes it, with one
  argument; `none` is `NULL`. -/
  ast_to_json : Option AST_NODE → Option CStr
  /-- Whether `fopen(name, "w")` returns a stream; the name is `none` when the
  argument is the null pointer that ends `argv`. -/
  fopen_w : Option CStr → Bool

/-- The calls `main` makes, as far as they are visible from outside. -/
inductive Event where
  | printf (text : CStr)
  | stderr (text : CStr)
  | fopen_r (name : CStr)
  | yyparse
  | fclose_yyin
  | free_typedef_name
  | ast_to_json
  | ast_free
  | fopen_w (name : Option CStr)
  | fputs (text : CStr) (name : Option CStr)
  | fclose_out

/-- Opening the output file for writing. -/
def Event.opensOutput : Event → Bool
  | .fopen_w _ => true
  | _ => false

/-- Writing to the output file. -/
def Event.writesOutput : Event → Bool
  | .fputs _ _ => true
  | _ => false

/-- A call of the serializer. -/
def Event.callsSerializer : Event → Bool
  | .ast_to_json => true
  | _ => false

/-- A call of the parser. -/
def Event.callsParser : Event → Bool
  | .yyparse => true
  | _ => false

/-- Opening the input file. -/
def Event.opensInput : Event → Bool
  | .fopen_r _ => true
  | _ => false

/-- `main` of `main.c`: the exit status and the calls made, in order. `argv` is the
argument vector, `argc` its length; `argv[i]` past the end is the null pointer. -/
def main (w : World) (argv : List CStr) : Int × List Event :=
  let argc : Int := (argv.length : Int)
  if argc < 2 then
    (1, [Event.printf ("Usage: ".toList ++ fmt_s argv[0]? ++ " <out_file> OR ".toList
          ++ fmt_s argv[0]? ++ " <in_file> <out_file>".toList)])
  else
    let in_name : Option CStr := if argc > 2 then argv[1]? else none
    let out_name : Option CStr := if argc > 2 then argv[2]? else argv[1]?
    let yyin_ok : Bool :=
      match in_name with
      | some name => w.fopen_r name
      | none => true
    let ev1 : List Event :=
      match in_name with
      | some name => [Event.fopen_r name]
      | none => []
    if !yyin_ok then
      (2, ev1 ++ [Event.stderr ("Cannot open for reading: ".toList ++ fmt_s in_name
            ++ "\n".toList)])
    else
      let yyres := w.yyparse
      let ev2 := ev1 ++ [Event.yyparse]
        ++ (if argc > 2 then [Event.fclose_yyin] else []) ++ [Event.free_typedef_name]
      let astroot : Option AST_NODE := none
      if yyres ≠ 0 || astroot.isNone then
        (3, ev2 ++ [Event.stderr "Parsing failed! No output will be provided.\n".toList])
      else
        let json := w.ast_to_json astroot
        let ev3 := ev2 ++ [Event.ast_to_json, Event.ast_free]
        match json with
        | none => (4, ev3 ++ [Event.stderr "JSON generation failure!\n".toList])
        | some text =>
          let out_ok := w.fopen_w argv[2]?
          let ev4 := ev3 ++ [Event.fopen_w argv[2]?]
          if !out_ok then
            (5, ev4 ++ [Event.stderr ("Cannot open for writing: ".toList
                  ++ fmt_s out_name ++ "\n".toList)])
          else
            (0, ev4 ++ [Event.fputs text argv[2]?, Event.fclose_out])

/-- A world in which every file opens, the parser accepts and the serializer returns
the empty object. -/
def friendlyWorld : World where
  fopen_r := fun _ => true
  yyparse := 0
  ast_to_json := fun _ => some "\x7b\x7d".toList
  fopen_w := fun _ => true

/-- A world in which every file opens and the parser rejects the input. -/
def rejectingWorld : World where
  fopen_r := fun _ => true
  yyparse := 1
  ast_to_json := fun _ => some "\x7b\x7d".toList
  fopen_w := fun _ => true


/-- A string literal with the given characters. -/
def Buffer.literal (s : CStr) : Buffer :=
  ⟨s, true, Storage.static⟩

/-! ## Lemmas on `mult` -/

theorem mult_copy_no_index_fault (str : CStr) (res_ok : Bool) (hpos : 0 < str.length) :
    ∀ count i : Nat,
      mult_copy str str.length res_ok count i ≠ .error Undefined.division_by_zero ∧
      mult_copy str str.length res_ok count i ≠ .error Undefined.read_outside_string
  | 0, i => by unfold mult_copy; simp
  | count + 1, i => by
    have hm : i % str.length < str.length := Nat.mod_lt _ hpos
    have ih := mult_copy_no_index_fault str res_ok hpos count (i + 1)
    unfold mult_copy
    rw [if_neg (Nat.pos_iff_ne_zero.mp hpos), List.getElem?_eq_getElem hm]
    simp only []
    split
    · simp
    · split
      · simp
      · split
        · rename_i u hu
          constructor
          · intro h
            simp only [Except.error.injEq] at h
            rw [h] at hu
            exact ih.1 hu
          · intro h
            simp only [Except.error.injEq] at h
            rw [h] at hu
            exact ih.2 hu
        · simp

theorem mult_no_index_fault (n : Int) (str : Buffer) (env : Env) :
    mult n str env ≠ .error Undefined.division_by_zero ∧
    mult n str env ≠ .error Undefined.read_outside_string := by
  unfold mult
  split
  · simp
  · split
    · simp
    · split
      · simp
      · cases hterm : str.terminated with
        | false => simp [strlen, hterm]
        | true =>
          simp only [strlen, hterm, if_true]
          rcases Nat.eq_zero_or_pos str.bytes.length with hlen | hlen
          · have hzero : str.bytes.length * n.toNat % SIZE_MODULUS = 0 := by
              rw [hlen]; simp
            rw [hzero]
            unfold mult_copy
            simp
          · have hcopy := mult_copy_no_index_fault str.bytes (Env.next env).1 hlen
              (str.bytes.length * n.toNat % SIZE_MODULUS) 0
            split
            · rename_i u hu
              constructor
              · intro h
                simp only [Except.error.injEq] at h
                rw [h] at hu
                exact hcopy.1 hu
              · intro h
                simp only [Except.error.injEq] at h
                rw [h] at hu
                exact hcopy.2 hu
            · simp

/-! ## Lemmas on `ast_to_json` -/

theorem json_sprintf_null_type (act_tab : Option Buffer) (tab : Buffer)
    (children_number : Int) (conc_children : Option Buffer) (text : CStr) :
    json_sprintf act_tab tab none children_number conc_children ≠ .ok text := by
  unfold json_sprintf
  generalize sprintf_s act_tab = a
  generalize sprintf_s (some tab) = t
  generalize sprintf_s conc_children = c
  cases a <;> cases t <;> simp [sprintf_cat, sprintf_s]

theorem ast_to_json_never_returns (json_size : Nat) (root : AST_NODE) (shift : Int)
    (tab : Buffer) (env : Env) (h : ast_type_to_str root.type = none)
    (r : Buffer × Env) :
    (ast_to_json json_size root shift tab env).2 ≠ .returns r := by
  cases root with
  | mk type children =>
    have htype : ast_type_to_str type = none := h
    unfold ast_to_json
    simp only []
    split
    · simp
    · simp
    · simp only [Option.isNone, Bool.false_eq_true, if_false]
      split
      · simp
      · split
        · simp
        · split
          · simp
          · rw [htype]
            split
            · simp
            · rename_i text htext
              exact absurd htext (json_sprintf_null_type _ _ _ _ _)

theorem ast_to_json_children_calls (json_size : Nat) (shift : Int) (tab : Buffer)
    (children_ok : Bool) :
    ∀ (cs : List AST_NODE) (env : Env),
      ∀ call ∈ (ast_to_json_children json_size cs shift tab children_ok env).1,
        call.1 ∈ cs ∧ call.2 = shift + 2
  | [], env => by
    unfold ast_to_json_children
    simp
  | c :: cs, env => by
    intro call hcall
    unfold ast_to_json_children at hcall
    split at hcall
    · simp at hcall
    · split at hcall
      · simp only [List.mem_singleton] at hcall
        rw [hcall]; simp
      · simp only [List.mem_singleton] at hcall
        rw [hcall]; simp
      · rename_i text env1 _
        split at hcall
        · simp only [List.mem_singleton] at hcall
          rw [hcall]; simp
        · have ih := ast_to_json_children_calls json_size shift tab children_ok cs env1
          split at hcall
          all_goals
            rename_i calls _ hrest
            rw [hrest] at ih
            rcases List.mem_cons.mp hcall with hhead | htail
            · rw [hhead]; simp
            · exact ⟨List.mem_cons_of_mem _ (ih call htail).1, (ih call htail).2⟩

theorem ast_to_json_children_first_call (json_size : Nat) (shift : Int) (tab : Buffer)
    (children_ok : Bool) (c : AST_NODE) (cs : List AST_NODE) (env : Env)
    (hshift : shift + 2 ≤ INT_MAX) :
    (c, shift + 2) ∈ (ast_to_json_children json_size (c :: cs) shift tab children_ok env).1 := by
  unfold ast_to_json_children
  rw [if_neg (by omega)]
  split
  · simp
  · simp
  · split
    · simp
    · split <;> simp

theorem ast_to_json_calls_eq (json_size : Nat) (type : AST_NODE_TYPE)
    (children : List AST_NODE) (shift : Int) (tab : Buffer) (env : Env) :
    (ast_to_json json_size (.mk type children) shift tab env).1 =
      (ast_to_json_children json_size children shift tab (Env.next env).1 (Env.next env).2).1 := by
  unfold ast_to_json
  simp only []
  split
  · rename_i hloop; rw [hloop]
  · rename_i hloop; rw [hloop]
  · rename_i hloop
    rw [hloop]
    simp only [Option.isNone, Bool.false_eq_true, if_false]
    split
    · rfl
    · split
      · rfl
      · split
        · rfl
        · split
          · rfl
          · split
            · rfl
            · split
              · rfl
              · split
                · rfl
                · split <;> rfl

/-! ## The serializer: children -/

/-- C1 (code defect): for a node with one child, serialized at depth 0 with a blank as
`tab`, `ast_to_json` makes the recursive call for the child and that call is undefined
(`%s` is given the buffer of `mult(2, tab)`, which has no NUL); whatever the
environment answers, the call for the node does not return a text. And the `sprintf`
call of the node, given a kind with a name, which `ast_type_to_str` never supplies,
would print `"children_number": 1` over an array without element, since
`conc_children` is the literal `""`. -/
theorem C1_no_text_and_empty_array :
    ast_to_json 4096 (.mk 0 [.mk 0 []]) 0 (Buffer.literal " ".toList) [] =
      ([(.mk 0 [], 2)], .undefined Undefined.unterminated_string)
    ∧ (∀ (json_size : Nat) (env : Env) (r : Buffer × Env),
        (ast_to_json json_size (.mk 0 [.mk 0 []]) 0 (Buffer.literal " ".toList) env).2
          ≠ .returns r)
    ∧ json_sprintf (some Buffer.empty_literal) (Buffer.literal " ".toList)
        (some (Buffer.literal "unit".toList)) 1 (some Buffer.empty_literal) =
      .ok "\x7b\n \"type\": \"unit\",\n \"children_number\": 1,\n \"children\": [\n ]\x7d".toList := by
  refine ⟨rfl, ?_, rfl⟩
  intro json_size env r
  exact ast_to_json_never_returns json_size _ 0 _ env rfl r

/-- C2 (code defect): for a node with two leaf children, serialized at depth 0 with a
blank as `tab`, the only recursive call `ast_to_json` makes is the one for the first
child, which is undefined; whatever the environment answers, no text is returned for
the node. And the `sprintf` call of the node, given a kind with a name, would print
one object, with nothing between the line that opens the `children` array and the
bracket that closes it. -/
theorem C2_children_texts_absent :
    ast_to_json 4096 (.mk 0 [.mk 1 [], .mk 2 []]) 0 (Buffer.literal " ".toList) [] =
      ([(.mk 1 [], 2)], .undefined Undefined.unterminated_string)
    ∧ (∀ (json_size : Nat) (env : Env) (r : Buffer × Env),
        (ast_to_json json_size (.mk 0 [.mk 1 [], .mk 2 []]) 0 (Buffer.literal " ".toList)
          env).2 ≠ .returns r)
    ∧ json_sprintf (some Buffer.empty_literal) (Buffer.literal " ".toList)
        (some (Buffer.literal "pair".toList)) 2 (some Buffer.empty_literal) =
      .ok "\x7b\n \"type\": \"pair\",\n \"children_number\": 2,\n \"children\": [\n ]\x7d".toList
    ∧ (AST_NODE.mk 0 [.mk 1 [], .mk 2 []]).size = 3 := by
  refine ⟨rfl, ?_, rfl, rfl⟩
  intro json_size env r
  exact ast_to_json_never_returns json_size _ 0 _ env rfl r

/-- C3 (code defect): `ast_type_to_str` returns the null pointer for every value of
`AST_NODE_TYPE`; no value has a name. -/
theorem C3_ast_type_to_str_null (type : AST_NODE_TYPE) : ast_type_to_str type = none := by
  rfl


/-- C5 (code defect): for a leaf at depth 2 with two blanks as `tab`, `mult(2, tab)`
returns a buffer of four blanks with no NUL, the first `%s` of the `sprintf` call reads
past it, so the call of `ast_to_json` is undefined; whatever the environment answers, it
returns no text. -/
theorem C5_indentation_read_past_buffer :
    mult 2 (Buffer.literal "  ".toList) [] =
      .ok (some ⟨"    ".toList, false, Storage.heap⟩, [])
    ∧ sprintf_s (some ⟨"    ".toList, false, Storage.heap⟩)
      = .error Undefined.unterminated_string
    ∧ ast_to_json 4096 (.mk 0 []) 2 (Buffer.literal "  ".toList) [] =
      ([], .undefined Undefined.unterminated_string)
    ∧ (∀ (json_size : Nat) (env : Env) (r : Buffer × Env),
        (ast_to_json json_size (.mk 0 []) 2 (Buffer.literal "  ".toList) env).2
          ≠ .returns r) := by
  refine ⟨rfl, rfl, rfl, ?_⟩
  intro json_size env r
  exact ast_to_json_never_returns json_size _ 2 _ env rfl r

/-- C6 (code defect): for a leaf of kind 3 at depth 0 with a tabulation as `tab`, the
`sprintf` call of `ast_to_json` is given the null pointer for the name of the kind, so
the call is undefined; whatever the environment answers, no text is returned, hence no
`children_number` and no `children` array. -/
theorem C6_leaf_no_text :
    ast_to_json 4096 (.mk 3 []) 0 (Buffer.literal "\t".toList) [] =
      ([], .undefined Undefined.null_string)
    ∧ (∀ (json_size : Nat) (env : Env) (r : Buffer × Env),
        (ast_to_json json_size (.mk 3 []) 0 (Buffer.literal "\t".toList) env).2
          ≠ .returns r) := by
  refine ⟨rfl, ?_⟩
  intro json_size env r
  exact ast_to_json_never_returns json_size _ 0 _ env rfl r

/-- C7 (code defect): for a leaf at depth 1 with a tabulation as `tab` the call of
`ast_to_json` is undefined and returns no text. And the format of its `sprintf` call,
given a kind with a name, ends with the closing bracket, the indentation and the
closing brace on one line: no newline follows the bracket. -/
theorem C7_bracket_and_brace_on_one_line :
    ast_to_json 4096 (.mk 0 []) 1 (Buffer.literal "\t".toList) [] =
      ([], .undefined Undefined.null_string)
    ∧ json_sprintf (some (Buffer.literal "\t".toList)) (Buffer.literal "\t".toList)
        (some (Buffer.literal "leaf".toList)) 0 (some Buffer.empty_literal) =
      .ok "\t\x7b\n\t\t\"type\": \"leaf\",\n\t\t\"children_number\": 0,\n\t\t\"children\": [\n\t\t]\t\x7d".toList := by
  exact ⟨rfl, rfl⟩

/-- C8 (code defect): for a leaf of kind 5 at depth 3 with a tabulation as `tab`, two
calls of `ast_to_json`, under two sequences of answers of the library that both let
every call succeed, are undefined: `%s` reads past the buffer of `mult(3, tab)`, which
holds three tabulations and no NUL. What follows the buffer in memory is no part of the
tree, of `shift` or of `tab`. No text is returned, whatever the environment answers. -/
theorem C8_text_not_determined :
    mult 3 (Buffer.literal "\t".toList) [] =
      .ok (some ⟨"\t\t\t".toList, false, Storage.heap⟩, [])
    ∧ ast_to_json 4096 (.mk 5 []) 3 (Buffer.literal "\t".toList) [] =
      ([], .undefined Undefined.unterminated_string)
    ∧ ast_to_json 4096 (.mk 5 []) 3 (Buffer.literal "\t".toList) [true, true, true, true] =
      ([], .undefined Undefined.unterminated_string)
    ∧ (∀ (json_size : Nat) (env : Env) (r : Buffer × Env),
        (ast_to_json json_size (.mk 5 []) 3 (Buffer.literal "\t".toList) env).2
          ≠ .returns r) := by
  refine ⟨rfl, rfl, rfl, ?_⟩
  intro json_size env r
  exact ast_to_json_never_returns json_size _ 3 _ env rfl r

/-! ## The entry point -/

/-- The part of `main` after the usage test never reaches the serializer: `astroot` is
the null pointer, so the test `yyres || !astroot` holds. -/
theorem main_status_events (w : World) (argv : List CStr) :
    ((main w argv).1 = 1 ∨ (main w argv).1 = 2 ∨ (main w argv).1 = 3) ∧
    (main w argv).2.all
      (fun e => !e.opensOutput && !e.writesOutput && !e.callsSerializer) = true ∧
    ((main w argv).2.any Event.callsParser = true → (main w argv).1 = 3) := by
  unfold main
  by_cases hargc : (argv.length : Int) < 2
  · simp [hargc, Event.opensOutput, Event.writesOutput, Event.callsSerializer,
      Event.callsParser]
  · by_cases h2 : (argv.length : Int) > 2
    · cases hin : argv[1]? with
      | none =>
        simp [hargc, h2, hin, Event.opensOutput, Event.writesOutput, Event.callsSerializer,
          Event.callsParser]
      | some name =>
        cases hopen : w.fopen_r name <;>
        simp [hargc, h2, hin, hopen, Event.opensOutput, Event.writesOutput,
          Event.callsSerializer, Event.callsParser]
    · simp [hargc, h2, Event.opensOutput, Event.writesOutput, Event.callsSerializer,
        Event.callsParser]

/-- C9 (code defect): with two positional arguments, or with one, in a world where the
input opens, `yyparse` returns 0 and the output file would open, `main` returns 3 after
the parser call and writes nothing; and no run of `main` returns 0. -/
theorem C9_success_path_unreachable :
    main friendlyWorld ["c-to-json".toList, "in.c".toList, "out.json".toList] =
      (3, [Event.fopen_r "in.c".toList, Event.yyparse, Event.fclose_yyin,
        Event.free_typedef_name,
        Event.stderr "Parsing failed! No output will be provided.\n".toList])
    ∧ main friendlyWorld ["c-to-json".toList, "out.json".toList] =
      (3, [Event.yyparse, Event.free_typedef_name,
        Event.stderr "Parsing failed! No output will be provided.\n".toList])
    ∧ ∀ (w : World) (argv : List CStr), (main w argv).1 ≠ 0 := by
  refine ⟨rfl, rfl, ?_⟩
  intro w argv
  rcases (main_status_events w argv).1 with h | h | h <;> rw [h] <;> decide

/-- C10: in every run of `main` that calls `yyparse` and gets a non-zero result, `main`
returns exit status 3, and among the calls it makes there is no `fopen` of the output
file, no `fputs` and no call of `ast_to_json`. -/
theorem C10_parse_failure_fails_fast (w : World) (argv : List CStr)
    (hcall : (main w argv).2.any Event.callsParser = true) (hres : w.yyparse ≠ 0) :
    (main w argv).1 = 3 ∧
    (main w argv).2.all
      (fun e => !e.opensOutput && !e.writesOutput && !e.callsSerializer) = true := by
  have _ := hres
  exact ⟨(main_status_events w argv).2.2 hcall, (main_status_events w argv).2.1⟩

/-- C10 in a world whose parser returns 1, with an input and an output file name. -/
theorem C10_parse_failure_fails_fast_witness :
    (main rejectingWorld ["c-to-json".toList, "in.c".toList, "out.json".toList]).2.any
        Event.callsParser = true ∧
    rejectingWorld.yyparse ≠ 0 ∧
    (main rejectingWorld ["c-to-json".toList, "in.c".toList, "out.json".toList]).1 = 3 ∧
    (main rejectingWorld ["c-to-json".toList, "in.c".toList, "out.json".toList]).2.all
      (fun e => !e.opensOutput && !e.writesOutput && !e.callsSerializer) = true :=
  ⟨rfl, by decide,
    C10_parse_failure_fails_fast rejectingWorld
      ["c-to-json".toList, "in.c".toList, "out.json".toList] rfl (by decide)⟩

/-- C11: `main` returns exit status 1 exactly when no positional argument is given
(`argc < 2`). In that case the only call it makes is the `printf` of the usage line: no
file is opened and `yyparse` is not called. With a positional argument the status is 2
when the input file cannot be opened and 3 once `yyparse` has been called, never 1. -/
theorem C11_usage_error (w : World) (argv : List CStr) :
    ((main w argv).1 = 1 ↔ (argv.length : Int) < 2) ∧
    ((argv.length : Int) < 2 →
      (main w argv).2.all
        (fun e => !e.opensInput && !e.opensOutput && !e.callsParser) = true) ∧
    (¬ (argv.length : Int) < 2 →
      ((main w argv).2.any Event.callsParser = false → (main w argv).1 = 2) ∧
      ((main w argv).2.any Event.callsParser = true → (main w argv).1 = 3)) := by
  unfold main
  by_cases hargc : (argv.length : Int) < 2
  · simp [hargc, Event.opensInput, Event.opensOutput, Event.callsParser]
  · by_cases h2 : (argv.length : Int) > 2
    · cases hin : argv[1]? with
      | none =>
        simp [hargc, h2, hin, Event.opensInput, Event.opensOutput, Event.callsParser]
      | some name =>
        cases hopen : w.fopen_r name <;>
        simp [hargc, h2, hin, hopen, Event.opensInput, Event.opensOutput,
          Event.callsParser]
    · simp [hargc, h2, Event.opensInput, Event.opensOutput, Event.callsParser]

/-- C11 for a run without positional argument, in a world where the parser would
accept. -/
theorem C11_usage_error_witness :
    ((["c-to-json".toList] : List CStr).length : Int) < 2 ∧
    (main friendlyWorld ["c-to-json".toList]).1 = 1 ∧
    (main friendlyWorld ["c-to-json".toList]).2.all
      (fun e => !e.opensInput && !e.opensOutput && !e.callsParser) = true :=
  ⟨by decide,
    (C11_usage_error friendlyWorld ["c-to-json".toList]).1.mpr (by decide),
    (C11_usage_error friendlyWorld ["c-to-json".toList]).2.1 (by decide)⟩

/-! ## `mult` -/

/-- C12 (code defect): `mult(2, "ab")` returns a buffer that holds `abab` and no NUL:
it is not a C string, `strlen` and `%s` are undefined on it. `mult(0, str)` is the
literal `""` and `mult(1, str)` is `str` itself. -/
theorem C12_mult_buffer_without_nul :
    mult 2 (Buffer.literal "ab".toList) [] =
      .ok (some ⟨"abab".toList, false, Storage.heap⟩, [])
    ∧ strlen ⟨"abab".toList, false, Storage.heap⟩ = .error Undefined.unterminated_string
    ∧ sprintf_s (some ⟨"abab".toList, false, Storage.heap⟩)
      = .error Undefined.unterminated_string
    ∧ (∀ (str : Buffer) (env : Env),
        mult 0 str env = .ok (some Buffer.empty_literal, env)
        ∧ mult 1 str env = .ok (some str, env)) := by
  exact ⟨rfl, rfl, rfl, fun _ _ => ⟨rfl, rfl⟩⟩

/-! ## The serializer: depth of the children -/

/-- C13 (counterexample): for a node with one child serialized at depth 0, the
recursive call for the child is made with `shift = 2`, not with `0 + 1`. -/
theorem C13_child_depth_counterexample :
    (ast_to_json 4096 (.mk 0 [.mk 1 []]) 0 (Buffer.literal "\t".toList) []).1 =
      [(.mk 1 [], 2)]
    ∧ ¬ ∀ call ∈ (ast_to_json 4096 (.mk 0 [.mk 1 []]) 0 (Buffer.literal "\t".toList) []).1,
        call.2 = 0 + 1 := by
  have hcalls : (ast_to_json 4096 (.mk 0 [.mk 1 []]) 0 (Buffer.literal "\t".toList) []).1 =
      [(.mk 1 [], 2)] := rfl
  refine ⟨hcalls, ?_⟩
  rw [hcalls]
  intro hall
  have h2 := hall (.mk 1 [], 2) (List.mem_singleton.mpr rfl)
  exact absurd h2 (by decide)

/-- C13 (amended): for every node serialized by `ast_to_json` at depth `shift`, every
recursive call it makes is a call for one of the children of the node, at depth
`shift + 2`; and when `shift + 2` is in the range of `int`, the call for the first
child is made. -/
theorem C13_children_two_levels_deeper (json_size : Nat) (root : AST_NODE) (shift : Int)
    (tab : Buffer) (env : Env) :
    (∀ call ∈ (ast_to_json json_size root shift tab env).1,
      call.1 ∈ root.children ∧ call.2 = shift + 2)
    ∧ (shift + 2 ≤ INT_MAX → ∀ (c : AST_NODE) (cs : List AST_NODE),
        root.children = c :: cs →
        (c, shift + 2) ∈ (ast_to_json json_size root shift tab env).1) := by
  cases root with
  | mk type children =>
    rw [ast_to_json_calls_eq]
    constructor
    · exact ast_to_json_children_calls json_size shift tab _ children _
    · intro hshift c cs hchildren
      have hcs : children = c :: cs := hchildren
      rw [hcs]
      exact ast_to_json_children_first_call json_size shift tab _ c cs _ hshift

/-- C13 (amended) at a node with two children, `shift = 1` and a blank as `tab`. -/
theorem C13_children_two_levels_deeper_witness :
    (1 : Int) + 2 ≤ INT_MAX
    ∧ (AST_NODE.mk 0 [.mk 1 [], .mk 2 []]).children = [.mk 1 [], .mk 2 []]
    ∧ (ast_to_json 4096 (.mk 0 [.mk 1 [], .mk 2 []]) 1 (Buffer.literal " ".toList) []).1
        = [(.mk 1 [], 3)]
    ∧ (∀ call ∈
        (ast_to_json 4096 (.mk 0 [.mk 1 [], .mk 2 []]) 1 (Buffer.literal " ".toList) []).1,
        call.1 ∈ (AST_NODE.mk 0 [.mk 1 [], .mk 2 []]).children ∧ call.2 = 1 + 2)
    ∧ ((AST_NODE.mk 1 []), (1 : Int) + 2) ∈
        (ast_to_json 4096 (.mk 0 [.mk 1 [], .mk 2 []]) 1 (Buffer.literal " ".toList) []).1 :=
  ⟨by decide, rfl, rfl,
    (C13_children_two_levels_deeper 4096 (.mk 0 [.mk 1 [], .mk 2 []]) 1
      (Buffer.literal " ".toList) []).1,
    (C13_children_two_levels_deeper 4096 (.mk 0 [.mk 1 [], .mk 2 []]) 1
      (Buffer.literal " ".toList) []).2 (by decide) (.mk 1 []) [.mk 2 []] rfl⟩

/-! ## `mult`: division, reads and the null pointer -/

/-- C14 (code defect): when its `malloc` returns the null pointer, `mult(2, "ab")`
stores `res[0]` through that pointer: the call is undefined and does not run to its
end. For every `n`, every `str` and every answer of the library, no call of `mult`
divides by zero and none reads `str` outside its characters. -/
theorem C14_mult_store_through_null :
    mult 2 (Buffer.literal "ab".toList) [false] = .error Undefined.write_through_null
    ∧ (∀ (n : Int) (str : Buffer) (env : Env),
        mult n str env ≠ .error Undefined.division_by_zero
        ∧ mult n str env ≠ .error Undefined.read_outside_string)
    ∧ (∀ env : Env, mult 5 (Buffer.literal []) env
        = .ok (if (Env.next env).1 then some ⟨[], false, Storage.heap⟩ else none,
            (Env.next env).2)) := by
  exact ⟨rfl, mult_no_index_fault, fun _ => rfl⟩

/-- C15 (code defect): `mult(2, "")` asks `malloc` for zero bytes and returns its
result untested: when that is the null pointer, `mult` returns `NULL` although `n` is
not negative. And `mult(2, tab)` for a blank `tab` is a buffer without NUL, not a
string. For negative `n` the result is `NULL`. -/
theorem C15_mult_null_for_positive_n :
    mult 2 (Buffer.literal []) [false] = .ok (none, [])
    ∧ mult 2 (Buffer.literal " ".toList) [] =
      .ok (some ⟨"  ".toList, false, Storage.heap⟩, [])
    ∧ (∀ (str : Buffer) (env : Env), mult (-1) str env = .ok (none, env)) := by
  exact ⟨rfl, rfl, fun _ _ => rfl⟩

end CToJson
